import Mathlib

/-!
Verification of the SocketLogger connection state machine
(src/src/SocketLogger.js of typhonjs-core-logging-socket).

The source is a small event-driven class: a binary connection status
("disconnected" / "connected"), an outgoing message queue, transport
callbacks registered in the private method named with an underscore
followed by "init" (socket:open, socket:close, socket:message:in), public
operations connect / disconnect, and six level-tagged logging operations.

Shallow embedding: each JavaScript callback or method becomes a pure Lean
function from the logger state to a new state paired with a list of
emitted effects (transport calls, deferred event-bus notifications, and
timer scheduling).  Opaque JavaScript values (socket options, log
arguments, correlation ids) are modelled as strings.  The reconnect
setTimeout is modelled by a system-level state carrying the absolute fire
times of pending timers, with an explicit timer-fire event.
-/

namespace SocketLogger

/-- Fixed reconnect interval, from the source constant of the same name. -/
def s_RECONNECT_INTERVAL : Nat := 5000

/-- Event-bus name for the connected notification, from the source. -/
def s_STR_EVENT_CONNECTED : String := "socketlogger:connected"

/-- Event-bus name for the disconnected notification, from the source. -/
def s_STR_EVENT_DISCONNECTED : String := "socketlogger:disconnected"

/-- Outbound wire messages the logger hands to socket.send.  The field
names mirror the JavaScript object fields: msg "connect" has no other
field, msg "pong" carries an id, msg "log" carries a level tag and the
ordered caller arguments. -/
inductive OutMsg where
  | connectMsg : OutMsg
  | pong (id : String) : OutMsg
  | logMsg (type : String) (data : List String) : OutMsg
  deriving DecidableEq, Repr

/-- Inbound wire message: a record with a msg discriminator and an id
field (the id is only meaningful for msg "ping"; for other inbound
messages it is an ignored opaque value). -/
structure InMsg where
  msg : String
  id : String
  deriving DecidableEq, Repr

/-- Observable effects of a handler: transport calls, deferred event-bus
notifications (with the socket options payload), and setTimeout
scheduling of a transport connect after a delay. -/
inductive Effect where
  | socketSend (m : OutMsg)
  | socketConnect
  | socketDisconnect
  | triggerDefer (ev : String) (opts : String)
  | setTimer (delay : Nat)
  deriving DecidableEq, Repr

/-- The mutable instance state of a SocketLogger: the status string, the
outgoing message queue contents (head first), and the immutable
construction parameters the handlers read (autoReconnect flag and the
socket options passed as notification payload). -/
structure LoggerState where
  status : String
  messageQueue : List OutMsg
  autoReconnect : Bool
  socketOptions : String
  deriving DecidableEq, Repr

/-- Modelled from the spec: Queue.push of typhonjs-core-socket (the Queue
class is imported by the source but its code is not part of this
repository).  Spec 4.1: enqueue(message) appends to the tail; no size
bound; no error condition. -/
def pushQueue (q : List OutMsg) (m : OutMsg) : List OutMsg := q ++ [m]

/-- Modelled from the spec: Queue.empty of typhonjs-core-socket.  Spec
4.1: clear() discards all buffered messages unconditionally. -/
def emptyQueue (_q : List OutMsg) : List OutMsg := []

/-- Modelled from the spec: Queue.process of typhonjs-core-socket.  Spec
4.1: flush() iterates the queue from head to tail; for each message it
invokes the transmit predicate canSend; if the predicate returns true the
message is removed and considered sent; if false, iteration stops
immediately and the remaining messages stay queued in original order.
Returns (remaining queue, sent messages in send order); the actual
transmission performed inside the source predicate is emitted as
socketSend effects by the caller. -/
def flushQueue (canSend : OutMsg → Bool) : List OutMsg → List OutMsg × List OutMsg
  | [] => ([], [])
  | m :: rest =>
    if canSend m then
      let p := flushQueue canSend rest
      (p.1, m :: p.2)
    else (m :: rest, [])

/-- The transmit predicate the constructor installs on the queue (source
lines 69-73): a message may be sent exactly when the status is
"connected"; the message itself is not inspected. -/
def canSend (s : LoggerState) (_message : OutMsg) : Bool :=
  decide (s.status = "connected")

/-- The socket:open callback: send the handshake msg "connect" control
message directly on the socket; the state is untouched. -/
def onSocketOpen (s : LoggerState) : LoggerState × List Effect :=
  (s, [Effect.socketSend OutMsg.connectMsg])

/-- The socket:close callback: set status to "disconnected", empty the
queue, emit the deferred disconnected notification, and, when
autoReconnect is set, schedule a one-shot transport connect after the
fixed reconnect interval. -/
def onSocketClose (s : LoggerState) : LoggerState × List Effect :=
  let s2 := { s with status := "disconnected",
                     messageQueue := emptyQueue s.messageQueue }
  let effs := [Effect.triggerDefer s_STR_EVENT_DISCONNECTED s.socketOptions]
  if s.autoReconnect then
    (s2, effs ++ [Effect.setTimer s_RECONNECT_INTERVAL])
  else
    (s2, effs)

/-- The socket:message:in callback: switch on the msg discriminator.
Case "connected": set status to "connected", process the queue (each
message accepted by the transmit predicate is removed and sent), emit the
deferred connected notification.  Case "ping": send msg "pong" echoing
the id.  Any other discriminator falls through the switch: no effect. -/
def onSocketMessageIn (s : LoggerState) (message : InMsg) : LoggerState × List Effect :=
  if message.msg = "connected" then
    let s2 := { s with status := "connected" }
    let p := flushQueue (canSend s2) s2.messageQueue
    ({ s2 with messageQueue := p.1 },
      p.2.map Effect.socketSend ++
        [Effect.triggerDefer s_STR_EVENT_CONNECTED s.socketOptions])
  else if message.msg = "ping" then
    (s, [Effect.socketSend (OutMsg.pong message.id)])
  else
    (s, [])

/-- Public connect(): issue a transport connect; no state change. -/
def connect (s : LoggerState) : LoggerState × List Effect :=
  (s, [Effect.socketConnect])

/-- Public disconnect(): forward disconnect to the transport, set status
to "disconnected", empty the queue, emit the deferred disconnected
notification.  Note: it does not schedule any timer itself. -/
def disconnect (s : LoggerState) : LoggerState × List Effect :=
  ({ s with status := "disconnected",
            messageQueue := emptyQueue s.messageQueue },
   [Effect.socketDisconnect,
    Effect.triggerDefer s_STR_EVENT_DISCONNECTED s.socketOptions])

/-- Common body of the six logging operations: push a msg "log" record
with the level tag and the ordered caller arguments onto the queue. -/
def logLevelPush (ty : String) (data : List String) (s : LoggerState) :
    LoggerState × List Effect :=
  ({ s with messageQueue := pushQueue s.messageQueue (OutMsg.logMsg ty data) }, [])

/-- Public trace(...args). -/
def trace (data : List String) (s : LoggerState) : LoggerState × List Effect :=
  logLevelPush "trace" data s

/-- Public debug(...args). -/
def debug (data : List String) (s : LoggerState) : LoggerState × List Effect :=
  logLevelPush "debug" data s

/-- Public info(...args). -/
def info (data : List String) (s : LoggerState) : LoggerState × List Effect :=
  logLevelPush "info" data s

/-- Public warn(...args). -/
def warn (data : List String) (s : LoggerState) : LoggerState × List Effect :=
  logLevelPush "warn" data s

/-- Public error(...args). -/
def error (data : List String) (s : LoggerState) : LoggerState × List Effect :=
  logLevelPush "error" data s

/-- Public fatal(...args). -/
def fatal (data : List String) (s : LoggerState) : LoggerState × List Effect :=
  logLevelPush "fatal" data s

/-- Constructor: status starts "disconnected", queue empty; when
autoConnect is set a transport connect is issued immediately. -/
def construct (autoConnect autoReconnect : Bool) (socketOptions : String) :
    LoggerState × List Effect :=
  ({ status := "disconnected", messageQueue := [],
     autoReconnect := autoReconnect, socketOptions := socketOptions },
   if autoConnect then [Effect.socketConnect] else [])

/-- External stimuli driving the logger, plus the firing of a scheduled
reconnect timer. -/
inductive Ev where
  | callConnect
  | callDisconnect
  | logCall (ty : String) (data : List String)
  | socketOpen
  | socketClose
  | msgIn (m : InMsg)
  | timerFire
  deriving DecidableEq, Repr

/-- Dispatch a non-timer event to the corresponding source handler. -/
def handle (s : LoggerState) : Ev → LoggerState × List Effect
  | .callConnect => connect s
  | .callDisconnect => disconnect s
  | .logCall ty data => logLevelPush ty data s
  | .socketOpen => onSocketOpen s
  | .socketClose => onSocketClose s
  | .msgIn m => onSocketMessageIn s m
  | .timerFire => (s, [])

/-- Extract the delay of a setTimer effect, if any. -/
def timerDelay : Effect → Option Nat
  | .setTimer d => some d
  | _ => none

/-- Whether an effect is a setTimer scheduling. -/
def isTimer : Effect → Bool
  | .setTimer _ => true
  | _ => false

/-- System state: the logger instance together with the absolute fire
times of the pending setTimeout reconnect timers. -/
structure Sys where
  logger : LoggerState
  timers : List Nat
  deriving DecidableEq, Repr

/-- One timed step.  A timer-fire event at time t issues the scheduled
transport connect exactly when a pending timer is due at t (removing that
timer).  Any other event runs the source handler; setTimer effects are
converted into pending timers due at the current time plus the delay, and
the remaining effects are recorded in the trace stamped with the current
time. -/
def sysStep (s : Sys) (t : Nat) (e : Ev) : Sys × List (Nat × Effect) :=
  match e with
  | .timerFire =>
    if s.timers.contains t then
      ({ s with timers := s.timers.erase t }, [(t, Effect.socketConnect)])
    else (s, [])
  | e =>
    let p := handle s.logger e
    ({ logger := p.1,
       timers := s.timers ++ (p.2.filterMap timerDelay).map (fun d => t + d) },
     (p.2.filter (fun x => !isTimer x)).map (fun x => (t, x)))

/-- Run a timed event sequence, concatenating the step traces. -/
def sysRun (s : Sys) : List (Nat × Ev) → Sys × List (Nat × Effect)
  | [] => (s, [])
  | (t, e) :: rest =>
    let p := sysStep s t e
    let q := sysRun p.1 rest
    (q.1, p.2 ++ q.2)

/-- The transport connect calls occurring in a trace. -/
def connectsIn (tr : List (Nat × Effect)) : List (Nat × Effect) :=
  tr.filter (fun p => p.2 = Effect.socketConnect)

end SocketLogger

namespace SocketLogger

theorem flushQueue_eq (p : OutMsg → Bool) (q : List OutMsg) :
    flushQueue p q = (q.dropWhile p, q.takeWhile p) := by
  induction q with
  | nil => rfl
  | cons m rest ih =>
    cases hp : p m <;>
      simp [flushQueue, hp, ih, List.dropWhile_cons, List.takeWhile_cons]

theorem flushQueue_of_true (p : OutMsg → Bool) (hp : ∀ m, p m = true)
    (q : List OutMsg) : flushQueue p q = ([], q) := by
  induction q with
  | nil => rfl
  | cons m rest ih => simp [flushQueue, hp, ih]

/-- Claim C2: flush visits the queue head to tail, removes and sends each
message the transmit predicate accepts, stops at the first rejected
message leaving it and its successors queued in original order; a
sequence of enqueues builds the queue in call order; and with the
source's transmit predicate in a "connected" status every buffered
message is sent in enqueue order. -/
theorem C2_flush_fifo (p : OutMsg → Bool) (q msgs : List OutMsg)
    (mq : List OutMsg) (ar : Bool) (opts : String) :
    flushQueue p q = (q.dropWhile p, q.takeWhile p) ∧
    msgs.foldl pushQueue [] = msgs ∧
    flushQueue
      (canSend { status := "connected", messageQueue := mq,
                 autoReconnect := ar, socketOptions := opts }) q = ([], q) := by
  refine ⟨flushQueue_eq p q, ?_, ?_⟩
  · induction msgs using List.reverseRecOn with
    | nil => rfl
    | append_singleton xs x ih => simp [pushQueue, List.foldl_append, ih]
  · exact flushQueue_of_true _ (fun m => by simp [canSend]) q

/-- Claim C3: after the socket:close handler runs, in any starting state,
the outgoing queue is empty, the status is "disconnected", and the
deferred disconnected notification carrying the socket options is among
the emitted effects. -/
theorem C3_close_clears (s : LoggerState) :
    (onSocketClose s).1.messageQueue = [] ∧
    (onSocketClose s).1.status = "disconnected" ∧
    Effect.triggerDefer s_STR_EVENT_DISCONNECTED s.socketOptions ∈
      (onSocketClose s).2 := by
  cases h : s.autoReconnect <;> simp [onSocketClose, emptyQueue, h]

/-- Claim C7: the socket:open handler sends the handshake msg "connect"
control message directly on the socket (the queue is not consulted) and
changes nothing: the state, hence the status and the queue contents and
order, is exactly as before. -/
theorem C7_open_handshake (s : LoggerState) :
    onSocketOpen s = (s, [Effect.socketSend OutMsg.connectMsg]) ∧
    (onSocketOpen s).1.status = s.status ∧
    (onSocketOpen s).1.messageQueue = s.messageQueue := by
  exact ⟨rfl, rfl, rfl⟩

/-- Claim C9: an inbound message whose msg discriminator is neither
"connected" nor "ping" is ignored: the handler returns the state
unchanged and emits no effect at all. -/
theorem C9_unknown_ignored (s : LoggerState) (m : InMsg)
    (h1 : m.msg ≠ "connected") (h2 : m.msg ≠ "ping") :
    onSocketMessageIn s m = (s, []) := by
  simp [onSocketMessageIn, h1, h2]

/-- Claim C9 witness: a concrete unrecognized inbound message, msg "sub",
leaves a concrete state untouched and emits nothing. -/
theorem C9_unknown_ignored_witness :
    ("sub" : String) ≠ "connected" ∧ ("sub" : String) ≠ "ping" ∧
    onSocketMessageIn
      { status := "connected", messageQueue := [OutMsg.logMsg "info" ["x"]],
        autoReconnect := true, socketOptions := "opts" }
      { msg := "sub", id := "1" } =
      ({ status := "connected", messageQueue := [OutMsg.logMsg "info" ["x"]],
         autoReconnect := true, socketOptions := "opts" }, []) := by
  refine ⟨by decide, by decide, ?_⟩
  exact C9_unknown_ignored _ _ (by decide) (by decide)

/-- Claim C10: for an inbound msg "ping" with id x the handler sends msg
"pong" echoing x on the socket whatever the current status is (the reply
is not guarded by any status check), and the state is unchanged. -/
theorem C10_ping_unguarded (s : LoggerState) (x : String) :
    onSocketMessageIn s { msg := "ping", id := x } =
      (s, [Effect.socketSend (OutMsg.pong x)]) := by
  simp [onSocketMessageIn]

/-- Claim C6: an inbound msg "ping" with id x while the status is
"connected" produces exactly one outbound msg "pong" with the same id,
sent directly on the socket; the state (in particular the queue and the
"connected" status) is unchanged. -/
theorem C6_ping_pong (s : LoggerState) (x : String)
    (h : s.status = "connected") :
    onSocketMessageIn s { msg := "ping", id := x } =
      (s, [Effect.socketSend (OutMsg.pong x)]) ∧
    (onSocketMessageIn s { msg := "ping", id := x }).1.status = "connected" ∧
    (onSocketMessageIn s { msg := "ping", id := x }).1.messageQueue =
      s.messageQueue := by
  refine ⟨?_, ?_, ?_⟩ <;> simp [onSocketMessageIn, h]

/-- Claim C6 witness: concrete connected state, ping id "abc" yields
exactly one pong id "abc" and nothing else. -/
theorem C6_ping_pong_witness :
    ({ status := "connected", messageQueue := [OutMsg.logMsg "warn" ["w"]],
       autoReconnect := true, socketOptions := "opts" } : LoggerState).status =
        "connected" ∧
    onSocketMessageIn
      { status := "connected", messageQueue := [OutMsg.logMsg "warn" ["w"]],
        autoReconnect := true, socketOptions := "opts" }
      { msg := "ping", id := "abc" } =
      ({ status := "connected", messageQueue := [OutMsg.logMsg "warn" ["w"]],
         autoReconnect := true, socketOptions := "opts" },
       [Effect.socketSend (OutMsg.pong "abc")]) := by
  exact ⟨rfl, (C6_ping_pong _ "abc" rfl).1⟩

/-- Claim C5: from a "disconnected" status, an inbound msg "connected"
sets the status to "connected", flushes the whole queue to the socket in
order, and emits the deferred connected notification carrying the socket
options. -/
theorem C5_connected_ack (s : LoggerState) (i : String)
    (_h : s.status = "disconnected") :
    onSocketMessageIn s { msg := "connected", id := i } =
      ({ s with status := "connected", messageQueue := [] },
       s.messageQueue.map Effect.socketSend ++
         [Effect.triggerDefer s_STR_EVENT_CONNECTED s.socketOptions]) := by
  have hall : ∀ m, canSend { s with status := "connected" } m = true := by
    intro m; simp [canSend]
  simp [onSocketMessageIn, flushQueue_of_true _ hall]

/-- Claim C5 witness: a concrete disconnected state with two queued log
messages; the ack connects, sends both in order and emits the deferred
connected notification. -/
theorem C5_connected_ack_witness :
    ({ status := "disconnected",
       messageQueue := [OutMsg.logMsg "info" ["x"], OutMsg.logMsg "warn" ["y"]],
       autoReconnect := true, socketOptions := "opts" } : LoggerState).status =
        "disconnected" ∧
    onSocketMessageIn
      { status := "disconnected",
        messageQueue := [OutMsg.logMsg "info" ["x"], OutMsg.logMsg "warn" ["y"]],
        autoReconnect := true, socketOptions := "opts" }
      { msg := "connected", id := "" } =
      ({ status := "connected", messageQueue := [],
         autoReconnect := true, socketOptions := "opts" },
       [Effect.socketSend (OutMsg.logMsg "info" ["x"]),
        Effect.socketSend (OutMsg.logMsg "warn" ["y"]),
        Effect.triggerDefer s_STR_EVENT_CONNECTED "opts"]) := by
  exact ⟨rfl, C5_connected_ack _ "" rfl⟩

end SocketLogger

namespace SocketLogger

theorem sysStep_timerFire_of_nil (s : Sys) (t : Nat) (hs : s.timers = []) :
    sysStep s t Ev.timerFire = (s, []) := by
  simp [sysStep, hs]

theorem sysRun_fires_nil (s : Sys) (hs : s.timers = []) :
    ∀ evs : List (Nat × Ev), (∀ p ∈ evs, p.2 = Ev.timerFire) →
      sysRun s evs = (s, []) := by
  intro evs
  induction evs with
  | nil => intro _; rfl
  | cons p rest ih =>
    intro h
    obtain ⟨t, e⟩ := p
    have he : e = Ev.timerFire := h (t, e) (List.mem_cons_self _ _)
    subst he
    simp [sysRun, sysStep_timerFire_of_nil s t hs,
      ih (fun q hq => h q (List.mem_cons_of_mem _ hq))]

theorem sysRun_single_timer (l : LoggerState) (u : Nat) :
    ∀ fires : List Nat,
      sysRun ⟨l, [u]⟩ (fires.map fun t => (t, Ev.timerFire)) =
        if fires.contains u then (⟨l, []⟩, [(u, Effect.socketConnect)])
        else (⟨l, [u]⟩, []) := by
  intro fires
  induction fires with
  | nil => simp [sysRun]
  | cons t ts ih =>
    by_cases h : t = u
    · subst h
      have hstep : sysStep ⟨l, [t]⟩ t Ev.timerFire =
          (⟨l, []⟩, [(t, Effect.socketConnect)]) := by
        simp [sysStep, List.contains_cons]
      have hrest := sysRun_fires_nil ⟨l, []⟩ rfl
        (ts.map fun t2 => (t2, Ev.timerFire))
        (fun p hp => by obtain ⟨a, _, rfl⟩ := List.mem_map.1 hp; rfl)
      simp [sysRun, hstep, hrest, List.contains_cons]
    · have hstep : sysStep ⟨l, [u]⟩ t Ev.timerFire = (⟨l, [u]⟩, []) := by
        simp [sysStep]
        exact h
      have hne : ¬u = t := fun hh => h hh.symm
      simp [sysRun, hstep, ih, hne]

end SocketLogger

namespace SocketLogger

/-- Claim C4: from a quiescent system (no pending timer) with
autoReconnect enabled, a transport closed event at time t0 schedules
exactly one one-shot reconnect timer due at t0 + 5000 (the fixed source
interval), issues no immediate transport connect, and over any following
sequence of timer-fire instants the transport connect calls are exactly
one at t0 + 5000 — none earlier, none later, no repetition. -/
theorem C4_fixed_reconnect (s : Sys) (t0 : Nat) (fires : List Nat)
    (har : s.logger.autoReconnect = true) (ht : s.timers = []) :
    s_RECONNECT_INTERVAL = 5000 ∧
    (sysStep s t0 Ev.socketClose).1.timers = [t0 + 5000] ∧
    connectsIn (sysStep s t0 Ev.socketClose).2 = [] ∧
    connectsIn (sysRun (sysStep s t0 Ev.socketClose).1
        (fires.map fun t => (t, Ev.timerFire))).2 =
      (if fires.contains (t0 + 5000) then [(t0 + 5000, Effect.socketConnect)]
       else []) := by
  have hstep : sysStep s t0 Ev.socketClose =
      (⟨{ s.logger with status := "disconnected", messageQueue := [] },
        [t0 + 5000]⟩,
       [(t0, Effect.triggerDefer s_STR_EVENT_DISCONNECTED
               s.logger.socketOptions)]) := by
    simp [sysStep, handle, onSocketClose, emptyQueue, har, ht, timerDelay,
      isTimer, s_RECONNECT_INTERVAL]
  refine ⟨rfl, by rw [hstep], by rw [hstep]; simp [connectsIn], ?_⟩
  rw [hstep, sysRun_single_timer]
  by_cases hm : t0 + 5000 ∈ fires <;> simp [hm, connectsIn]

/-- Claim C4 witness: concrete connected logger, close at time 0, timer
fires attempted at 4999, 5000 and 6000: the only transport connect is at
time 5000. -/
theorem C4_fixed_reconnect_witness :
    (⟨⟨"connected", [], true, "opts"⟩, []⟩ : Sys).logger.autoReconnect = true ∧
    connectsIn (sysRun
        (sysStep ⟨⟨"connected", [], true, "opts"⟩, []⟩ 0 Ev.socketClose).1
        ([4999, 5000, 6000].map fun t => (t, Ev.timerFire))).2 =
      (if [4999, 5000, 6000].contains (0 + 5000) then
        [(0 + 5000, Effect.socketConnect)]
       else []) := by
  exact ⟨rfl,
    (C4_fixed_reconnect ⟨⟨"connected", [], true, "opts"⟩, []⟩ 0
      [4999, 5000, 6000] rfl rfl).2.2.2⟩

/-- Claim C1 counterexample: two concrete executions in which a
transport connect occurs after a manual disconnect with no new connect()
call.  First: manual disconnect at time 0, the transport emits closed at
time 1 as a consequence, and the reconnect timer the close handler
schedules fires a transport connect at time 5001.  Second: an unexpected
close at time 0 schedules a reconnect timer due at 5000; the manual
disconnect at time 1000 does not cancel it (the source never clears the
pending setTimeout), and with no closed event after the disconnect the
timer still fires a transport connect at time 5000. -/
theorem C1_counterexample :
    (5001, Effect.socketConnect) ∈
      (sysRun ⟨⟨"connected", [], true, "opts"⟩, []⟩
        [(0, Ev.callDisconnect), (1, Ev.socketClose),
         (5001, Ev.timerFire)]).2 ∧
    (5000, Effect.socketConnect) ∈
      (sysRun ⟨⟨"connected", [], true, "opts"⟩, []⟩
        [(0, Ev.socketClose), (1000, Ev.callDisconnect),
         (5000, Ev.timerFire)]).2 := by
  refine ⟨by decide, by decide⟩

/-- Claim C1 (amended): the manual disconnect() call itself issues no
transport connect, schedules no reconnect timer and cancels none — it
leaves the pending reconnect timers of any system state exactly as they
were; consequently, when no reconnect timer is pending at the moment of
the manual disconnect and the transport emits no closed event afterwards,
no transport connect ever occurs, no matter which timer-fire instants
elapse.  (By the counterexample, a transport connect after a manual
disconnect does occur both when a closed event follows the disconnect
with autoReconnect enabled and when a reconnect timer scheduled by a
close before the disconnect is still pending, since disconnect() never
clears the pending setTimeout.) -/
theorem C1_manual_disconnect (s s2 : Sys) (t0 t : Nat)
    (fires : List (Nat × Ev)) (hs : s.timers = [])
    (hf : ∀ p ∈ fires, p.2 = Ev.timerFire) :
    (sysStep s2 t Ev.callDisconnect).1.timers = s2.timers ∧
    connectsIn (sysStep s2 t Ev.callDisconnect).2 = [] ∧
    connectsIn (sysRun s ((t0, Ev.callDisconnect) :: fires)).2 = [] ∧
    (sysRun s ((t0, Ev.callDisconnect) :: fires)).1.timers = [] := by
  refine ⟨?_, ?_, ?_, ?_⟩
  · simp [sysStep, handle, disconnect, emptyQueue, timerDelay]
  · simp [sysStep, handle, disconnect, emptyQueue, isTimer, connectsIn]
  all_goals {
    have hstep : sysStep s t0 Ev.callDisconnect =
        (⟨{ s.logger with status := "disconnected", messageQueue := [] }, []⟩,
         [(t0, Effect.socketDisconnect),
          (t0, Effect.triggerDefer s_STR_EVENT_DISCONNECTED
                 s.logger.socketOptions)]) := by
      simp [sysStep, handle, disconnect, emptyQueue, hs, timerDelay, isTimer]
    have hrest := sysRun_fires_nil
      ⟨{ s.logger with status := "disconnected", messageQueue := [] }, []⟩
      rfl fires hf
    simp [sysRun, hstep, hrest, connectsIn]
  }

/-- Claim C1 (amended) witness: a manual disconnect at time 1000 on a
state carrying a reconnect timer pending from an earlier close leaves
that timer pending, untouched; and on a concrete connected logger with
no pending timer, a manual disconnect at time 0 followed by a timer-fire
instant at exactly the reconnect interval 5000 produces no transport
connect and leaves no timer pending. -/
theorem C1_manual_disconnect_witness :
    (sysStep ⟨⟨"disconnected", [], true, "opts"⟩, [5000]⟩ 1000
        Ev.callDisconnect).1.timers =
      (⟨⟨"disconnected", [], true, "opts"⟩, [5000]⟩ : Sys).timers ∧
    connectsIn (sysStep ⟨⟨"disconnected", [], true, "opts"⟩, [5000]⟩ 1000
        Ev.callDisconnect).2 = [] ∧
    connectsIn (sysRun ⟨⟨"connected", [], true, "opts"⟩, []⟩
        ((0, Ev.callDisconnect) :: [(5000, Ev.timerFire)])).2 = [] ∧
    (sysRun ⟨⟨"connected", [], true, "opts"⟩, []⟩
        ((0, Ev.callDisconnect) :: [(5000, Ev.timerFire)])).1.timers = [] := by
  exact C1_manual_disconnect ⟨⟨"connected", [], true, "opts"⟩, []⟩
    ⟨⟨"disconnected", [], true, "opts"⟩, [5000]⟩ 0 1000
    [(5000, Ev.timerFire)] rfl (by decide)

/-- Claim C8: each of the six logging operations appends a msg "log"
record tagged with its level name and carrying the ordered caller
arguments to the tail of the outgoing queue (and emits nothing); and in
the spec scenario — construct with autoConnect, transport opened, the
info operation called with argument "x" while disconnected, then the
inbound connected ack — the flushed message is the msg "log" record of
type "info" with data exactly ["x"], followed by the deferred connected
notification. -/
theorem C8_log_levels (s : LoggerState) (data : List String) :
    trace data s =
      ({ s with messageQueue := s.messageQueue ++ [OutMsg.logMsg "trace" data] }, []) ∧
    debug data s =
      ({ s with messageQueue := s.messageQueue ++ [OutMsg.logMsg "debug" data] }, []) ∧
    info data s =
      ({ s with messageQueue := s.messageQueue ++ [OutMsg.logMsg "info" data] }, []) ∧
    warn data s =
      ({ s with messageQueue := s.messageQueue ++ [OutMsg.logMsg "warn" data] }, []) ∧
    error data s =
      ({ s with messageQueue := s.messageQueue ++ [OutMsg.logMsg "error" data] }, []) ∧
    fatal data s =
      ({ s with messageQueue := s.messageQueue ++ [OutMsg.logMsg "fatal" data] }, []) ∧
    sysRun ⟨(construct true true "opts").1, []⟩
        [(0, Ev.socketOpen), (1, Ev.logCall "info" ["x"]),
         (2, Ev.msgIn ⟨"connected", ""⟩)] =
      (⟨⟨"connected", [], true, "opts"⟩, []⟩,
       [(0, Effect.socketSend OutMsg.connectMsg),
        (2, Effect.socketSend (OutMsg.logMsg "info" ["x"])),
        (2, Effect.triggerDefer s_STR_EVENT_CONNECTED "opts")]) := by
  refine ⟨rfl, rfl, rfl, rfl, rfl, rfl, by decide⟩

end SocketLogger
